import Mathlib

/-!
Shallow embedding of the nostr-arena room-coordination core
(`src/types.rs`, `src/arena.rs`).  Pure data is translated directly;
the stateful `Arena<T>` methods become explicit state-passing functions
on `ArenaState T`, with relay publishes and application events returned
as explicit lists.  Machine integers (`u64`, `u32`, `usize`) are `Nat`,
`i64` is `Int`; none of the verified properties involves overflow.
-/

/-- Room status (`types.rs`, enum `RoomStatus`). -/
inductive RoomStatus
  | Idle
  | Creating
  | Waiting
  | Joining
  | Ready
  | Playing
  | Finished
  | Deleted
deriving DecidableEq, Repr

/-- Start mode (`types.rs`, enum `StartMode`). -/
inductive StartMode
  | Auto
  | Ready
  | Countdown
  | Host
deriving DecidableEq, Repr

/-- Player presence (`types.rs`, struct `PlayerPresence`). -/
structure PlayerPresence where
  pubkey : String
  joined_at : Nat
  last_seen : Nat
  ready : Bool
deriving DecidableEq, Repr

/-- Per-instance room state (`types.rs`, struct `RoomState`). -/
structure RoomState where
  room_id : Option String
  status : RoomStatus
  is_host : Bool
  seed : Nat
  created_at : Option Nat
  expires_at : Option Nat
  rematch_requested : Bool
deriving DecidableEq, Repr

/-- Default `RoomState` (derived `Default` in `types.rs`). -/
def RoomState.defaultState : RoomState :=
  { room_id := none, status := .Idle, is_host := false, seed := 0,
    created_at := none, expires_at := none, rematch_requested := false }

/-- Arena configuration (`types.rs`, struct `ArenaConfig`; relay URLs omitted,
they play no role in the verified logic). -/
structure ArenaConfig where
  game_id : String
  room_expiry : Nat
  heartbeat_interval : Nat
  disconnect_threshold : Nat
  state_throttle : Nat
  join_timeout : Nat
  max_players : Nat
  start_mode : StartMode
  countdown_seconds : Nat
  base_url : Option String
deriving DecidableEq, Repr

/-- Errors (`crates/nostr-arena-core/src/error.rs`, enum `ArenaError`). -/
inductive ArenaError
  | NotConnected
  | RoomNotFound
  | RoomExpired
  | RoomFull
  | RoomDeleted
  | InvalidRoomData (msg : String)
  | Timeout
  | NotAuthorized (msg : String)
  | AlreadyInRoom
  | NotInRoom
  | Nostr (msg : String)
  | Serialization (msg : String)
deriving DecidableEq, Repr

/-- JSON values, the model of `serde_json::Value`.  Numbers are `Int`,
which represents every `u64`/`i64` the codec emits exactly. -/
inductive Json
  | null
  | bool (b : Bool)
  | num (n : Int)
  | str (s : String)
  | arr (xs : List Json)
  | obj (fields : List (String × Json))

/-- Wire payloads, part 1 (`types.rs`, struct `JoinEventContent`). -/
structure JoinEventContent where
  player_pubkey : String
deriving DecidableEq, Repr

/-- Wire payloads (`types.rs`, struct `StateEventContent`). -/
structure StateEventContent where
  game_state : Json

/-- Wire payloads (`types.rs`, struct `GameOverEventContent`). -/
structure GameOverEventContent where
  reason : String
  final_score : Option Int
  winner : Option String
deriving DecidableEq, Repr

/-- Rematch action (`types.rs`, enum `RematchAction`). -/
inductive RematchAction
  | Request
  | Accept
deriving DecidableEq, Repr

/-- Wire payloads (`types.rs`, struct `RematchEventContent`). -/
structure RematchEventContent where
  action : RematchAction
  new_seed : Option Nat
deriving DecidableEq, Repr

/-- Wire payloads (`types.rs`, struct `HeartbeatEventContent`). -/
structure HeartbeatEventContent where
  timestamp : Nat
deriving DecidableEq, Repr

/-- Wire payloads (`types.rs`, struct `ReadyEventContent`). -/
structure ReadyEventContent where
  ready : Bool
deriving DecidableEq, Repr

/-- Wire payloads (`types.rs`, struct `GameStartEventContent`, an empty struct). -/
structure GameStartEventContent where
deriving DecidableEq, Repr

/-- Room snapshot (`types.rs`, struct `RoomEventContent`). -/
structure RoomEventContent where
  status : RoomStatus
  seed : Nat
  host_pubkey : String
  max_players : Nat
  expires_at : Option Nat
  players : List PlayerPresence
deriving DecidableEq, Repr

/-- Ephemeral payload union (`types.rs`, enum `EventContent`). -/
inductive EventContent
  | Room (c : RoomEventContent)
  | Join (c : JoinEventContent)
  | State (c : StateEventContent)
  | GameOver (c : GameOverEventContent)
  | Rematch (c : RematchEventContent)
  | Heartbeat (c : HeartbeatEventContent)
  | Ready (c : ReadyEventContent)
  | GameStart (c : GameStartEventContent)

/-- Application-facing events (`arena.rs`, enum `ArenaEvent<T>`). -/
inductive ArenaEvent (T : Type)
  | PlayerJoin (p : PlayerPresence)
  | PlayerLeave (pubkey : String)
  | PlayerState (pubkey : String) (state : T)
  | PlayerDisconnect (pubkey : String)
  | PlayerGameOver (pubkey : String) (reason : String) (final_score : Option Int)
  | RematchRequested (pubkey : String)
  | RematchStart (seed : Nat)
  | AllReady
  | CountdownStart (n : Nat)
  | CountdownTick (n : Nat)
  | GameStart
  | ErrorEvent (msg : String)

/-- Messages sent to relays: a replaceable room snapshot (`publish_room`) or
an ephemeral event (`publish_ephemeral`). -/
inductive WireMsg
  | room (c : RoomEventContent)
  | ephemeral (c : EventContent)

/-- Key-value maps: the model of `HashMap<String, V>` as an association list
with distinct keys.  `insertKV` is `HashMap::insert`. -/
def insertKV {V : Type} (m : List (String × V)) (k : String) (v : V) :
    List (String × V) :=
  (k, v) :: m.filter (fun p => p.1 ≠ k)

/-- `HashMap::get`. -/
def getKV {V : Type} (m : List (String × V)) (k : String) : Option V :=
  (m.find? (fun p => p.1 = k)).map (fun p => p.2)

/-- In-place update through `HashMap::get_mut`: a no-op when the key is absent. -/
def modifyKV {V : Type} (m : List (String × V)) (k : String) (f : V → V) :
    List (String × V) :=
  m.map (fun p => if p.1 = k then (p.1, f p.2) else p)

/-- `HashMap::contains_key`. -/
def memKV {V : Type} (m : List (String × V)) (k : String) : Bool :=
  m.any (fun p => p.1 = k)

/-- The complete in-memory state of one `Arena<T>` instance
(fields `room_state`, `players`, `player_states`, `last_state_update`
of `struct Arena<T>` in `arena.rs`). -/
structure ArenaState (T : Type) where
  room : RoomState
  players : List (String × PlayerPresence)
  player_states : List (String × T)
  last_state_update : Nat

/-- A fresh `Arena` (`Arena::new`). -/
def ArenaState.initial (T : Type) : ArenaState T :=
  { room := RoomState.defaultState, players := [], player_states := [],
    last_state_update := 0 }

/-- `Arena::leave` (`arena.rs` lines 392-400): clear `room_id`, set status
`Idle`, drop the host flag, empty both maps.  The other `RoomState` fields
are left as they were, exactly as in the source. -/
def leave {T : Type} (st : ArenaState T) : ArenaState T :=
  { st with
    room := { st.room with room_id := none, status := .Idle, is_host := false },
    players := [], player_states := [] }

/-- `Arena::delete_room` (`arena.rs` lines 403-433).  Returns the result, the
state after the call, and the published wire messages. -/
def delete_room {T : Type} (cfg : ArenaConfig) (selfPub : String)
    (st : ArenaState T) :
    Except ArenaError Unit × ArenaState T × List WireMsg :=
  if st.room.is_host = false then
    (.error (.NotAuthorized "Only host can delete room"), st, [])
  else
    match st.room.room_id with
    | none => (.error .NotInRoom, st, [])
    | some _ =>
      let content : RoomEventContent :=
        { status := .Deleted, seed := st.room.seed, host_pubkey := selfPub,
          max_players := cfg.max_players, expires_at := st.room.expires_at,
          players := [] }
      (.ok (), leave st, [WireMsg.room content])

/-- `Arena::check_auto_start` (`arena.rs` lines 859-870). -/
def check_auto_start {T : Type} (cfg : ArenaConfig) (st : ArenaState T) :
    ArenaState T × List (ArenaEvent T) :=
  if cfg.start_mode ≠ .Auto then (st, [])
  else if st.players.length ≥ cfg.max_players then
    ({ st with room := { st.room with status := .Playing } },
     [ArenaEvent.GameStart])
  else (st, [])

/-- The list `(1..=secs).rev()`, i.e. `[secs, secs-1, ..., 1]`, as iterated by
both countdown loops in `arena.rs`. -/
def rustRevRange (secs : Nat) : List Nat :=
  (List.range secs).map (fun i => secs - i)

/-- `Arena::check_all_ready` (`arena.rs` lines 872-904), with the spawned
countdown task run to completion: the returned event list is the whole
sequence this call eventually emits, in emission order.  In the `Countdown`
branch the spawned loop sends `CountdownTick(i)` for `i` in `(1..=secs).rev()`
before sleeping, then `GameStart`. -/
def check_all_ready {T : Type} (cfg : ArenaConfig) (st : ArenaState T) :
    ArenaState T × List (ArenaEvent T) :=
  let all_ready := st.players.all (fun p => p.2.ready)
  if !all_ready then (st, [])
  else
    match cfg.start_mode with
    | .Ready =>
      ({ st with room := { st.room with status := .Playing } },
       [ArenaEvent.AllReady, ArenaEvent.GameStart])
    | .Countdown =>
      let secs := cfg.countdown_seconds
      ({ st with room := { st.room with status := .Playing } },
       [ArenaEvent.AllReady, ArenaEvent.CountdownStart secs]
         ++ (rustRevRange secs).map (fun i => ArenaEvent.CountdownTick i)
         ++ [ArenaEvent.GameStart])
    | _ => (st, [ArenaEvent.AllReady])

/-- `Arena::create` (`arena.rs` lines 207-285), with `room_id`, `seed` and the
captured `now_ms()` passed in as inputs.  Returns the state after the call and
the published snapshot. -/
def create {T : Type} (cfg : ArenaConfig) (selfPub room_id : String)
    (seed now : Nat) (st : ArenaState T) : ArenaState T × List WireMsg :=
  let expires_at := if cfg.room_expiry > 0 then some (now + cfg.room_expiry)
                    else none
  let room1 :=
    { st.room with
      room_id := some room_id, status := .Creating,
      is_host := true, seed := seed, created_at := some now,
      expires_at := expires_at }
  let ps := insertKV st.players selfPub
    { pubkey := selfPub, joined_at := now, last_seen := now, ready := false }
  let content : RoomEventContent :=
    { status := .Waiting, seed := seed, host_pubkey := selfPub,
      max_players := cfg.max_players, expires_at := expires_at,
      players := ps.map (fun p => p.2) }
  ({ st with room := { room1 with status := .Waiting }, players := ps },
   [WireMsg.room content])

/-- The outcome of `fetch_room(tag)` inside `Arena::join`: a relay failure, no
event for the tag, or an event whose content either fails or succeeds to parse
as a `RoomEventContent`, together with the event's `created_at` in seconds. -/
inductive FetchResult
  | fetchErr (msg : String)
  | notFound
  | found (parsed : Except String RoomEventContent) (created_at_s : Nat)

/-- `Arena::join` (`arena.rs` lines 288-389) up to and including the status
transition to `Ready` and the publish of the Join ephemeral (the two delayed
reliability re-publishes are listed after it); the trailing
`check_auto_start` call is applied by `joinFull` below. -/
def joinRoom {T : Type} (selfPub room_id : String) (fetch : FetchResult)
    (now : Nat) (st : ArenaState T) :
    Except ArenaError Unit × ArenaState T × List WireMsg :=
  match fetch with
  | .fetchErr m => (.error (.Nostr m), st, [])
  | .notFound => (.error .RoomNotFound, st, [])
  | .found (.error m) _ => (.error (.InvalidRoomData m), st, [])
  | .found (.ok content) created_at_s =>
    if content.status = .Deleted then (.error .RoomDeleted, st, [])
    else if content.expires_at.elim false (fun e => decide (now > e)) = true then
      (.error .RoomExpired, st, [])
    else if content.players.length ≥ content.max_players then
      (.error .RoomFull, st, [])
    else
      let created_at := created_at_s * 1000
      let room1 :=
        { st.room with
          room_id := some room_id, status := RoomStatus.Joining,
          is_host := false, seed := content.seed,
          created_at := some created_at, expires_at := content.expires_at }
      let ps0 := content.players.foldl
        (fun m p => insertKV m p.pubkey p) st.players
      let ps := insertKV ps0 selfPub
        { pubkey := selfPub, joined_at := now, last_seen := now,
          ready := false }
      let joinMsg := WireMsg.ephemeral
        (EventContent.Join { player_pubkey := selfPub })
      (.ok (),
       { st with
         room := { room1 with status := RoomStatus.Ready },
         players := ps },
       [joinMsg, joinMsg, joinMsg])

/-- `Arena::join` including the final `check_auto_start` (run only when the
join succeeded, since every failure returns early with `?`). -/
def joinFull {T : Type} (selfPub room_id : String) (cfg : ArenaConfig)
    (fetch : FetchResult) (now : Nat) (st : ArenaState T) :
    Except ArenaError Unit × ArenaState T × List (ArenaEvent T) × List WireMsg :=
  match joinRoom selfPub room_id fetch now st with
  | (.error e, st1, pubs) => (.error e, st1, [], pubs)
  | (.ok _, st1, pubs) =>
    let (st2, evs) := check_auto_start cfg st1
    (.ok (), st2, evs, pubs)

/-- `Arena::send_state` (`arena.rs` lines 452-472): throttled publish of a
State ephemeral.  Note that the source updates `last_state_update` before the
`NotInRoom` check. -/
def send_state {T : Type} (cfg : ArenaConfig) (now : Nat) (gs : Json)
    (st : ArenaState T) :
    Except ArenaError Unit × ArenaState T × List WireMsg :=
  if now - st.last_state_update < cfg.state_throttle then (.ok (), st, [])
  else
    let st1 := { st with last_state_update := now }
    match st1.room.room_id with
    | none => (.error .NotInRoom, st1, [])
    | some _ =>
      (.ok (), st1,
       [WireMsg.ephemeral (EventContent.State { game_state := gs })])

/-- `Arena::send_game_over` (`arena.rs` lines 475-493). -/
def send_game_over {T : Type} (reason : String) (final_score : Option Int)
    (st : ArenaState T) :
    Except ArenaError Unit × ArenaState T × List WireMsg :=
  match st.room.room_id with
  | none => (.error .NotInRoom, st, [])
  | some _ =>
    (.ok (),
     { st with room := { st.room with status := .Finished } },
     [WireMsg.ephemeral (EventContent.GameOver
        { reason := reason, final_score := final_score, winner := none })])

/-- `Arena::request_rematch` (`arena.rs` lines 496-517). -/
def request_rematch {T : Type} (st : ArenaState T) :
    Except ArenaError Unit × ArenaState T × List WireMsg :=
  if st.room.status ≠ .Finished then (.ok (), st, [])
  else
    match st.room.room_id with
    | none => (.error .NotInRoom, st, [])
    | some _ =>
      (.ok (),
       { st with room := { st.room with rematch_requested := true } },
       [WireMsg.ephemeral (EventContent.Rematch
          { action := .Request, new_seed := none })])

/-- `Arena::reset_for_rematch` (`arena.rs` lines 906-922): adopt the new seed,
status `Ready`, clear `rematch_requested`, clear every ready flag, clear the
game states, emit `RematchStart`. -/
def reset_for_rematch {T : Type} (new_seed : Nat) (st : ArenaState T) :
    ArenaState T × List (ArenaEvent T) :=
  ({ st with
     room := { st.room with
               seed := new_seed, status := .Ready,
               rematch_requested := false },
     players := st.players.map (fun p => (p.1, { p.2 with ready := false })),
     player_states := [] },
   [ArenaEvent.RematchStart new_seed])

/-- `Arena::accept_rematch` (`arena.rs` lines 520-537): publish
`Rematch{Accept, new_seed}` then `reset_for_rematch`. -/
def accept_rematch {T : Type} (new_seed : Nat) (st : ArenaState T) :
    Except ArenaError Unit × ArenaState T × List (ArenaEvent T) × List WireMsg :=
  match st.room.room_id with
  | none => (.error .NotInRoom, st, [], [])
  | some _ =>
    let (st1, evs) := reset_for_rematch new_seed st
    (.ok (), st1, evs,
     [WireMsg.ephemeral (EventContent.Rematch
        { action := .Accept, new_seed := some new_seed })])

/-- `Arena::send_ready` (`arena.rs` lines 544-564): publish a Ready ephemeral,
flip the self presence's ready flag, then `check_all_ready`. -/
def send_ready {T : Type} (cfg : ArenaConfig) (selfPub : String) (rdy : Bool)
    (st : ArenaState T) :
    Except ArenaError Unit × ArenaState T × List (ArenaEvent T) × List WireMsg :=
  match st.room.room_id with
  | none => (.error .NotInRoom, st, [], [])
  | some _ =>
    let ps := modifyKV st.players selfPub (fun p => { p with ready := rdy })
    let (st1, evs) := check_all_ready cfg { st with players := ps }
    (.ok (), st1, evs,
     [WireMsg.ephemeral (EventContent.Ready { ready := rdy })])

/-- `Arena::start_game` (`arena.rs` lines 567-587). -/
def start_game {T : Type} (st : ArenaState T) :
    Except ArenaError Unit × ArenaState T × List (ArenaEvent T) × List WireMsg :=
  if st.room.is_host = false then
    (.error (.NotAuthorized "Only host can start game"), st, [], [])
  else
    match st.room.room_id with
    | none => (.error .NotInRoom, st, [], [])
    | some _ =>
      (.ok (),
       { st with room := { st.room with status := .Playing } },
       [ArenaEvent.GameStart],
       [WireMsg.ephemeral (EventContent.GameStart {})])

/-- The subscription callback of `Arena::start_room_subscription`
(`arena.rs` lines 621-771) for one inbound event: author pubkey, decoded
content, and the `now_ms()` value observed while handling it.  Self-authored
events are skipped.  `decodeT` models `serde_json::from_value::<T>`.  In the
`Ready`/`Countdown` branch the spawned countdown task is run to completion, so
the returned event list is everything this delivery eventually emits, in
order: the spawned loop sleeps first and sends `CountdownTick(remaining - 1)`
for `remaining` in `(1..=secs).rev()`, then `GameStart`. -/
def handleEvent {T : Type} (cfg : ArenaConfig) (myPubkey : String)
    (decodeT : Json → Option T) (author : String) (content : EventContent)
    (now : Nat) (st : ArenaState T) : ArenaState T × List (ArenaEvent T) :=
  if author = myPubkey then (st, [])
  else
    match content with
    | .Join j =>
      let presence : PlayerPresence :=
        { pubkey := j.player_pubkey, joined_at := now, last_seen := now,
          ready := false }
      let ps := insertKV st.players j.player_pubkey presence
      if cfg.start_mode = .Auto ∧ ps.length ≥ cfg.max_players then
        ({ st with
            players := ps,
            room := { st.room with status := .Playing } },
         [ArenaEvent.PlayerJoin presence, ArenaEvent.GameStart])
      else
        ({ st with players := ps }, [ArenaEvent.PlayerJoin presence])
    | .State se =>
      let ps := modifyKV st.players author
        (fun p => { p with last_seen := now })
      match decodeT se.game_state with
      | some t =>
        ({ st with
            players := ps,
            player_states := insertKV st.player_states author t },
         [ArenaEvent.PlayerState author t])
      | none => ({ st with players := ps }, [])
    | .Heartbeat hb =>
      ({ st with
          players := modifyKV st.players author
            (fun p => { p with last_seen := hb.timestamp }) },
       [])
    | .GameOver go =>
      ({ st with room := { st.room with status := .Finished } },
       [ArenaEvent.PlayerGameOver author go.reason go.final_score])
    | .Rematch rm =>
      match rm.action with
      | .Request => (st, [ArenaEvent.RematchRequested author])
      | .Accept =>
        match rm.new_seed with
        | some ns =>
          ({ st with
              room := { st.room with
                        seed := ns, status := .Ready,
                        rematch_requested := false } },
           [ArenaEvent.RematchStart ns])
        | none => (st, [])
    | .Ready r =>
      let ps := modifyKV st.players author
        (fun p => { p with ready := r.ready })
      let all_ready := ps.all (fun p => p.2.ready)
      if all_ready then
        match cfg.start_mode with
        | .Ready =>
          ({ st with
              players := ps,
              room := { st.room with status := .Playing } },
           [ArenaEvent.AllReady, ArenaEvent.GameStart])
        | .Countdown =>
          let secs := cfg.countdown_seconds
          ({ st with
              players := ps,
              room := { st.room with status := .Playing } },
           [ArenaEvent.AllReady, ArenaEvent.CountdownStart secs]
             ++ (rustRevRange secs).map
                  (fun r => ArenaEvent.CountdownTick (r - 1))
             ++ [ArenaEvent.GameStart])
        | _ => ({ st with players := ps }, [ArenaEvent.AllReady])
      else ({ st with players := ps }, [])
    | .GameStart _ =>
      ({ st with room := { st.room with status := .Playing } },
       [ArenaEvent.GameStart])
    | .Room _ => (st, [])

/-- One tick of the host's presence-reconciliation loop
(`Arena::start_presence_update`, `arena.rs` lines 802-857): skip unless a room
is active and this instance is the host; drop every player whose `last_seen`
is older than `disconnect_threshold`, emitting `PlayerLeave` per drop; then
publish a fresh snapshot of the surviving roster. -/
def presenceSweep {T : Type} (cfg : ArenaConfig) (selfPub : String) (now : Nat)
    (st : ArenaState T) : ArenaState T × List (ArenaEvent T) × List WireMsg :=
  if st.room.room_id = none ∨ st.room.is_host = false then (st, [], [])
  else
    let stale := fun (p : String × PlayerPresence) =>
      now - p.2.last_seen > cfg.disconnect_threshold
    let to_remove := (st.players.filter (fun p => stale p)).map (fun p => p.1)
    let ps := st.players.filter (fun p => ¬ stale p)
    let content : RoomEventContent :=
      { status := st.room.status, seed := st.room.seed,
        host_pubkey := selfPub, max_players := cfg.max_players,
        expires_at := st.room.expires_at,
        players := ps.map (fun p => p.2) }
    ({ st with players := ps },
     to_remove.map (fun k => ArenaEvent.PlayerLeave k),
     [WireMsg.room content])

/-- One externally observable operation on an Arena instance: a public API
call, an inbound subscription delivery, or a host sweep tick. -/
inductive Op (T : Type)
  | createOp (room_id : String) (seed now : Nat)
  | joinOp (room_id : String) (fetch : FetchResult) (now : Nat)
  | leaveOp
  | deleteOp
  | inboundOp (author : String) (content : EventContent) (now : Nat)
  | sweepOp (now : Nat)
  | sendReadyOp (rdy : Bool)
  | sendStateOp (gs : Json) (now : Nat)
  | startGameOp
  | acceptRematchOp (new_seed : Nat)
  | requestRematchOp
  | sendGameOverOp (reason : String) (score : Option Int)

/-- Step function tying every embedded operation together: the state after the
operation, the `ArenaEvent`s emitted to the application, and the wire
publishes, all straight from the per-method definitions above. -/
def step {T : Type} (cfg : ArenaConfig) (selfPub : String)
    (decodeT : Json → Option T) (op : Op T) (st : ArenaState T) :
    ArenaState T × List (ArenaEvent T) × List WireMsg :=
  match op with
  | .createOp room_id seed now =>
    let (st1, pubs) := create cfg selfPub room_id seed now st
    (st1, [], pubs)
  | .joinOp room_id fetch now =>
    let (_, st1, evs, pubs) := joinFull selfPub room_id cfg fetch now st
    (st1, evs, pubs)
  | .leaveOp => (leave st, [], [])
  | .deleteOp =>
    let (_, st1, pubs) := delete_room cfg selfPub st
    (st1, [], pubs)
  | .inboundOp author content now =>
    let (st1, evs) := handleEvent cfg selfPub decodeT author content now st
    (st1, evs, [])
  | .sweepOp now => presenceSweep cfg selfPub now st
  | .sendReadyOp rdy =>
    let (_, st1, evs, pubs) := send_ready cfg selfPub rdy st
    (st1, evs, pubs)
  | .sendStateOp gs now =>
    let (_, st1, pubs) := send_state cfg now gs st
    (st1, [], pubs)
  | .startGameOp =>
    let (_, st1, evs, pubs) := start_game st
    (st1, evs, pubs)
  | .acceptRematchOp new_seed =>
    let (_, st1, evs, pubs) := accept_rematch new_seed st
    (st1, evs, pubs)
  | .requestRematchOp =>
    let (_, st1, pubs) := request_rematch st
    (st1, [], pubs)
  | .sendGameOverOp reason score =>
    let (_, st1, pubs) := send_game_over reason score st
    (st1, [], pubs)

/-- Lowercase unit-variant encoding of `RoomStatus`
(serde `rename_all = "lowercase"`). -/
def encStatus : RoomStatus → Json
  | .Idle => .str "idle"
  | .Creating => .str "creating"
  | .Waiting => .str "waiting"
  | .Joining => .str "joining"
  | .Ready => .str "ready"
  | .Playing => .str "playing"
  | .Finished => .str "finished"
  | .Deleted => .str "deleted"

/-- Decoder for `RoomStatus`. -/
def decStatus : Json → Option RoomStatus
  | .str "idle" => some .Idle
  | .str "creating" => some .Creating
  | .str "waiting" => some .Waiting
  | .str "joining" => some .Joining
  | .str "ready" => some .Ready
  | .str "playing" => some .Playing
  | .str "finished" => some .Finished
  | .str "deleted" => some .Deleted
  | _ => none

/-- Lowercase encoding of `RematchAction`. -/
def encAction : RematchAction → Json
  | .Request => .str "request"
  | .Accept => .str "accept"

/-- Decoder for `RematchAction`. -/
def decAction : Json → Option RematchAction
  | .str "request" => some .Request
  | .str "accept" => some .Accept
  | _ => none

/-- Primitive JSON readers used by the struct decoders. -/
def asStr : Json → Option String
  | .str s => some s
  | _ => none

/-- Reader for an unsigned 64-bit field: a non-negative JSON number. -/
def asU64 : Json → Option Nat
  | .num n => if n < 0 then none else some n.toNat
  | _ => none

/-- Reader for a signed 64-bit field. -/
def asI64 : Json → Option Int
  | .num n => some n
  | _ => none

/-- Reader for a boolean field. -/
def asBool : Json → Option Bool
  | .bool b => some b
  | _ => none

/-- Optional struct field: serde skips the field entirely when the value is
`None` (`skip_serializing_if = "Option::is_none"`). -/
def optField (name : String) (v : Option Json) : List (String × Json) :=
  match v with
  | none => []
  | some j => [(name, j)]

/-- Optional-field decoding as serde derives it: a missing field and an
explicit `null` both give `None`; any other value must parse. -/
def decOpt {α : Type} (rd : Json → Option α) (fs : List (String × Json))
    (k : String) : Option (Option α) :=
  match getKV fs k with
  | none => some none
  | some .null => some none
  | some j => (rd j).map some

/-- Required-field decoding. -/
def reqField {α : Type} (rd : Json → Option α) (fs : List (String × Json))
    (k : String) : Option α :=
  (getKV fs k).bind rd

/-- Encoded `PlayerPresence` (derived `Serialize` in `types.rs`). -/
def encPlayer (p : PlayerPresence) : Json :=
  .obj [("pubkey", .str p.pubkey), ("joined_at", .num (p.joined_at : Int)),
        ("last_seen", .num (p.last_seen : Int)), ("ready", .bool p.ready)]

/-- Decoder for `PlayerPresence`. -/
def decPlayer : Json → Option PlayerPresence
  | .obj fs => do
    let pk ← reqField asStr fs "pubkey"
    let ja ← reqField asU64 fs "joined_at"
    let ls ← reqField asU64 fs "last_seen"
    let rd ← reqField asBool fs "ready"
    some { pubkey := pk, joined_at := ja, last_seen := ls, ready := rd }
  | _ => none

/-- Field list of a serialized `RoomEventContent`: `expires_at` is skipped when
`None`, `players` always serialized. -/
def encRoomFields (r : RoomEventContent) : List (String × Json) :=
  [("status", encStatus r.status), ("seed", .num (r.seed : Int)),
   ("host_pubkey", .str r.host_pubkey),
   ("max_players", .num (r.max_players : Int))]
    ++ optField "expires_at" (r.expires_at.map (fun e => .num (e : Int)))
    ++ [("players", .arr (r.players.map encPlayer))]

/-- Encoded `RoomEventContent`. -/
def encRoomEventContent (r : RoomEventContent) : Json :=
  .obj (encRoomFields r)

/-- Element-wise decoding of a JSON array of players, failing on the first
undecodable element, as serde does for sequences. -/
def decPlayers : List Json → Option (List PlayerPresence)
  | [] => some []
  | x :: xs => do
    let p ← decPlayer x
    let rest ← decPlayers xs
    some (p :: rest)

/-- Decoder for the fields of a `RoomEventContent`; `players` falls back to
the empty list when missing (`#[serde(default)]`). -/
def decRoomFields (fs : List (String × Json)) : Option RoomEventContent := do
  let status ← reqField decStatus fs "status"
  let seed ← reqField asU64 fs "seed"
  let hp ← reqField asStr fs "host_pubkey"
  let mp ← reqField asU64 fs "max_players"
  let ea ← decOpt asU64 fs "expires_at"
  let ps ← match getKV fs "players" with
           | none => some []
           | some (.arr xs) => decPlayers xs
           | some _ => none
  some { status := status, seed := seed, host_pubkey := hp,
         max_players := mp, expires_at := ea, players := ps }

/-- Decoder for `RoomEventContent`. -/
def decRoomEventContent : Json → Option RoomEventContent
  | .obj fs => decRoomFields fs
  | _ => none

/-- Encoded `EventContent`: internally tagged union, lowercase `type`
discriminator first, then the variant struct's fields
(`#[serde(tag = "type", rename_all = "lowercase")]`). -/
def encEventContent : EventContent → Json
  | .Room c => .obj (("type", .str "room") :: encRoomFields c)
  | .Join c => .obj [("type", .str "join"),
      ("player_pubkey", .str c.player_pubkey)]
  | .State c => .obj [("type", .str "state"), ("game_state", c.game_state)]
  | .GameOver c => .obj ([("type", .str "gameover"),
      ("reason", .str c.reason)]
      ++ optField "final_score" (c.final_score.map (fun s => .num s))
      ++ optField "winner" (c.winner.map (fun w => .str w)))
  | .Rematch c => .obj ([("type", .str "rematch"),
      ("action", encAction c.action)]
      ++ optField "new_seed" (c.new_seed.map (fun s => .num (s : Int))))
  | .Heartbeat c => .obj [("type", .str "heartbeat"),
      ("timestamp", .num (c.timestamp : Int))]
  | .Ready c => .obj [("type", .str "ready"), ("ready", .bool c.ready)]
  | .GameStart _ => .obj [("type", .str "gamestart")]

/-- Decoder for `EventContent`: dispatch on the `type` tag, then decode the
remaining fields as the variant struct. -/
def decEventContent : Json → Option EventContent
  | .obj fs =>
    match getKV fs "type" with
    | some (.str "room") => (decRoomFields fs).map .Room
    | some (.str "join") =>
      (reqField asStr fs "player_pubkey").map
        (fun pk => .Join { player_pubkey := pk })
    | some (.str "state") =>
      (getKV fs "game_state").map (fun v => .State { game_state := v })
    | some (.str "gameover") => do
      let reason ← reqField asStr fs "reason"
      let fsc ← decOpt asI64 fs "final_score"
      let w ← decOpt asStr fs "winner"
      some (.GameOver { reason := reason, final_score := fsc, winner := w })
    | some (.str "rematch") => do
      let act ← reqField decAction fs "action"
      let ns ← decOpt asU64 fs "new_seed"
      some (.Rematch { action := act, new_seed := ns })
    | some (.str "heartbeat") =>
      (reqField asU64 fs "timestamp").map
        (fun ts => .Heartbeat { timestamp := ts })
    | some (.str "ready") =>
      (reqField asBool fs "ready").map (fun b => .Ready { ready := b })
    | some (.str "gamestart") => some (.GameStart {})
    | _ => none
  | _ => none

/-- The failure ladder of `join` as the specification words it: no room event
means `RoomNotFound`; an unparsable snapshot `InvalidRoomData`; a `Deleted`
snapshot `RoomDeleted`; an `expires_at` in the past `RoomExpired`; a full
players list `RoomFull`; checked in that order (a relay failure surfaces as
`Nostr`).  Written from the spec for comparison with `joinRoom`, which is
translated from the source. -/
def joinFailureSpec (fetch : FetchResult) (now : Nat) : Option ArenaError :=
  match fetch with
  | .fetchErr m => some (.Nostr m)
  | .notFound => some .RoomNotFound
  | .found (.error m) _ => some (.InvalidRoomData m)
  | .found (.ok c) _ =>
    if c.status = .Deleted then some .RoomDeleted
    else if c.expires_at.elim false (fun e => decide (now > e)) = true then
      some .RoomExpired
    else if c.players.length ≥ c.max_players then some .RoomFull
    else none

/-- Publish times of a chronological sequence of `send_state` calls, each call
given as (observed `now_ms`, game state): the times at which a State ephemeral
actually went out. -/
def sendStateTimes {T : Type} (cfg : ArenaConfig) :
    ArenaState T → List (Nat × Json) → List Nat
  | _, [] => []
  | st, c :: rest =>
    let r := send_state cfg c.1 c.2 st
    (if r.2.2.isEmpty then [] else [c.1]) ++ sendStateTimes cfg r.2.1 rest

/-- The claimed invariant of spec §3.3: while the status is neither `Idle` nor
`Deleted`, the instance's own pubkey is a key of the players map. -/
def selfInvariant {T : Type} (selfPub : String) (st : ArenaState T) : Prop :=
  st.room.status ≠ .Idle → st.room.status ≠ .Deleted →
    memKV st.players selfPub = true

/-- Concrete two-player Auto-mode configuration used by the concrete
instances below (the library defaults of `ArenaConfig`). -/
def cfgAuto : ArenaConfig :=
  { game_id := "g", room_expiry := 0, heartbeat_interval := 3000,
    disconnect_threshold := 10000, state_throttle := 100,
    join_timeout := 30000, max_players := 2, start_mode := .Auto,
    countdown_seconds := 3, base_url := none }

/-- The same configuration in Countdown mode with `countdown_seconds = 3`. -/
def cfgCountdown : ArenaConfig := { cfgAuto with start_mode := .Countdown }

/-- A decoder for `T := Nat` that rejects everything; the game-state payload
plays no role in the concrete instances. -/
def decNone : Json → Option Nat := fun _ => none

/-- State of the host instance right after `create` at time 0
(room "ra", seed 42). -/
def hostSt : ArenaState Nat :=
  (create cfgAuto "host" "ra" 42 0 (ArenaState.initial Nat)).1

theorem memKV_insertKV_self {V : Type} (m : List (String × V)) (k : String) (v : V) :
    memKV (insertKV m k v) k = true := by
  simp [memKV, insertKV]

theorem memKV_insertKV_of_mem {V : Type} {m : List (String × V)} {k' : String}
    (k : String) (v : V) (h : memKV m k' = true) :
    memKV (insertKV m k v) k' = true := by
  by_cases hk : k' = k
  · subst hk; simp [memKV, insertKV]
  · simp only [memKV, insertKV, List.any_cons, List.any_filter, Bool.or_eq_true,
      decide_eq_true_eq, List.any_eq_true] at h ⊢
    obtain ⟨a, ha, hak⟩ := h
    refine Or.inr ⟨a, ha, ?_⟩
    have hne : a.1 ≠ k := by rw [hak]; exact hk
    simp [hak, hne, hk]

theorem memKV_foldl_insert {V : Type} {m : List (String × V)} {k' : String}
    (key : V → String) (ps : List V) (h : memKV m k' = true) :
    memKV (ps.foldl (fun acc p => insertKV acc (key p) p) m) k' = true := by
  induction ps generalizing m with
  | nil => exact h
  | cons p rest ih => exact ih (memKV_insertKV_of_mem (key p) p h)

theorem memKV_map_keep {V : Type} (m : List (String × V))
    (g : String × V → String × V) (hg : ∀ p, (g p).1 = p.1) (k : String) :
    memKV (m.map g) k = memKV m k := by
  simp only [memKV, List.any_map, Function.comp_def, hg]

theorem memKV_modifyKV {V : Type} (m : List (String × V)) (k k' : String)
    (f : V → V) : memKV (modifyKV m k f) k' = memKV m k' := by
  refine memKV_map_keep m _ (fun p => ?_) k'
  by_cases h : p.1 = k <;> simp [h]

theorem getKV_cons {V : Type} (a : String × V) (l : List (String × V))
    (k : String) :
    getKV (a :: l) k = if a.1 = k then some a.2 else getKV l k := by
  by_cases h : a.1 = k
  · simp [getKV, List.find?_cons_of_pos, h]
  · simp [getKV, List.find?_cons_of_neg, h]

theorem getKV_modifyKV_self {V : Type} (m : List (String × V)) (k : String)
    (f : V → V) : getKV (modifyKV m k f) k = (getKV m k).map f := by
  induction m with
  | nil => rfl
  | cons a rest ih =>
    by_cases h : a.1 = k
    · simp [modifyKV, getKV_cons, h]
    · simp only [modifyKV, List.map_cons, if_neg h, getKV_cons]
      simpa only [modifyKV] using ih

theorem memKV_filter_snd {V : Type} {m : List (String × V)} {k : String}
    {v : V} (q : String × V → Bool) (h : getKV m k = some v)
    (hq : ∀ k₀, q (k₀, v) = true) :
    memKV (m.filter q) k = true := by
  simp only [getKV, Option.map_eq_some'] at h
  obtain ⟨a, ha, hav⟩ := h
  have hmem := List.mem_of_find?_eq_some ha
  have hkey : a.1 = k := by
    have := List.find?_some ha
    simpa using this
  have hq' : q a = true := by
    have hae : a = (a.1, v) := by rw [← hav]
    rw [hae]; exact hq a.1
  simp only [memKV, List.any_eq_true, decide_eq_true_eq]
  exact ⟨a, List.mem_filter.mpr ⟨hmem, hq'⟩, hkey⟩

theorem memKV_iff_getKV {V : Type} (m : List (String × V)) (k : String) :
    memKV m k = true ↔ ∃ v, getKV m k = some v := by
  simp only [memKV, List.any_eq_true, decide_eq_true_eq, getKV,
    Option.map_eq_some']
  constructor
  · rintro ⟨a, ha, hak⟩
    have hex : ∃ b, List.find? (fun p => p.1 = k) m = some b := by
      rw [← Option.isSome_iff_exists, List.find?_isSome]
      exact ⟨a, ha, by simpa using hak⟩
    obtain ⟨b, hb⟩ := hex
    exact ⟨b.2, b, hb, rfl⟩
  · rintro ⟨v, a, ha, hav⟩
    refine ⟨a, List.mem_of_find?_eq_some ha, ?_⟩
    have := List.find?_some ha
    simpa using this

/-- C4: `join(room_id)` fails with `RoomNotFound` when no room event exists;
`InvalidRoomData` when the snapshot does not parse; `RoomDeleted` when its
status is `Deleted`; `RoomExpired` when `expires_at` is in the past;
`RoomFull` when the players list has length at least `max_players` — in that
order, exactly as `joinFailureSpec` (written from the spec) orders them; and
on each such failure the returned state is the input state and nothing is
published or emitted. -/
theorem C4_join_error_ladder (cfg : ArenaConfig) (selfPub room_id : String)
    (fetch : FetchResult) (now : Nat) (st : ArenaState Nat) :
    match joinFailureSpec fetch now with
    | some e => joinFull selfPub room_id cfg fetch now st =
        (Except.error e, st, [], [])
    | none => (joinFull selfPub room_id cfg fetch now st).1 = Except.ok () := by
  match fetch with
  | .fetchErr m => rfl
  | .notFound => rfl
  | .found (.error m) s => rfl
  | .found (.ok c) s =>
    simp only [joinFailureSpec, joinFull, joinRoom]
    by_cases h1 : c.status = .Deleted
    · simp [h1]
    · by_cases h2 : c.expires_at.elim false (fun e => decide (now > e)) = true
      · simp [h1, h2]
      · by_cases h3 : c.players.length ≥ c.max_players
        · simp [h1, h2, h3]
        · simp [h1, h2, h3]

/-- C6: after `leave()` returns, and after a successful `delete_room()`, the
Arena state has status `Idle`, no `room_id`, `is_host = false`, and empty
`players` and `player_states` maps. -/
theorem C6_leave_delete_reset {T : Type} (cfg : ArenaConfig) (selfPub : String)
    (st : ArenaState T) :
    ((leave st).room.status = .Idle ∧ (leave st).room.room_id = none ∧
      (leave st).room.is_host = false ∧ (leave st).players = [] ∧
      (leave st).player_states = []) ∧
    ((delete_room cfg selfPub st).1 = Except.ok () →
      ((delete_room cfg selfPub st).2.1.room.status = .Idle ∧
       (delete_room cfg selfPub st).2.1.room.room_id = none ∧
       (delete_room cfg selfPub st).2.1.room.is_host = false ∧
       (delete_room cfg selfPub st).2.1.players = [] ∧
       (delete_room cfg selfPub st).2.1.player_states = [])) := by
  refine ⟨⟨rfl, rfl, rfl, rfl, rfl⟩, ?_⟩
  intro hok
  unfold delete_room at hok ⊢
  by_cases hh : st.room.is_host = false
  · simp [hh] at hok
  · simp only [hh, if_false]
    match hrid : st.room.room_id with
    | none => simp [hh, hrid] at hok
    | some rid => simp [hh, hrid, leave]

/-- The concrete Idle arena used as witness input below. -/
def idleSt : ArenaState Nat := ArenaState.initial Nat

/-- A host arena holding room "ra", used as witness input below. -/
def hostIdleSt : ArenaState Nat :=
  { idleSt with
    room := { idleSt.room with is_host := true, room_id := some "ra" } }

theorem C6_witness :
    (delete_room cfgAuto "h" hostIdleSt).1 = Except.ok () ∧
    ((delete_room cfgAuto "h" hostIdleSt).2.1.room.status = .Idle ∧
     (delete_room cfgAuto "h" hostIdleSt).2.1.room.room_id = none ∧
     (delete_room cfgAuto "h" hostIdleSt).2.1.room.is_host = false ∧
     (delete_room cfgAuto "h" hostIdleSt).2.1.players = [] ∧
     (delete_room cfgAuto "h" hostIdleSt).2.1.player_states = []) :=
  ⟨rfl, (C6_leave_delete_reset cfgAuto "h" hostIdleSt).2 rfl⟩

/-- C10: `delete_room()` checks the host flag before room membership: any
arena with `is_host = false` (in particular every Idle arena, where
`room_id = none` as well) fails with `NotAuthorized` and an unchanged state,
never `NotInRoom`; the `NotInRoom` error is returned exactly when
`is_host = true` while `room_id = none`. -/
theorem C10_delete_host_check_first {T : Type} (cfg : ArenaConfig)
    (selfPub : String) (st : ArenaState T) :
    (st.room.is_host = false →
      delete_room cfg selfPub st =
        (Except.error (.NotAuthorized "Only host can delete room"), st, [])) ∧
    ((delete_room cfg selfPub st).1 = Except.error .NotInRoom ↔
      st.room.is_host = true ∧ st.room.room_id = none) := by
  constructor
  · intro hh
    simp [delete_room, hh]
  · unfold delete_room
    by_cases hh : st.room.is_host = false
    · simp [hh]
    · have hh' : st.room.is_host = true := by
        cases h : st.room.is_host
        · exact absurd h hh
        · rfl
      match hrid : st.room.room_id with
      | none => simp [hh, hh', hrid]
      | some rid => simp [hh, hh', hrid]

theorem C10_witness :
    delete_room cfgAuto "h" idleSt =
      (Except.error (.NotAuthorized "Only host can delete room"), idleSt, []) :=
  (C10_delete_host_check_first cfgAuto "h" idleSt).1 rfl

theorem sendStateTimes_bounds {T : Type} (cfg : ArenaConfig) :
    ∀ (calls : List (Nat × Json)) (st : ArenaState T),
    (∀ c ∈ calls, st.last_state_update ≤ c.1) →
    List.Pairwise (fun a b => a.1 ≤ b.1) calls →
    (∀ t ∈ sendStateTimes cfg st calls,
        st.last_state_update + cfg.state_throttle ≤ t) ∧
    List.Pairwise (fun a b => a + cfg.state_throttle ≤ b)
      (sendStateTimes cfg st calls) := by
  intro calls
  induction calls with
  | nil =>
    intro st _ _
    exact ⟨(by intro t ht; simp [sendStateTimes] at ht), List.Pairwise.nil⟩
  | cons c rest ih =>
    intro st hle hpw
    have hle_c : st.last_state_update ≤ c.1 := hle c (List.mem_cons_self c rest)
    have hpw_rest : List.Pairwise (fun a b => a.1 ≤ b.1) rest :=
      (List.pairwise_cons.mp hpw).2
    have hc_rest : ∀ c' ∈ rest, c.1 ≤ c'.1 :=
      (List.pairwise_cons.mp hpw).1
    by_cases hth : c.1 - st.last_state_update < cfg.state_throttle
    · -- throttled: no publish, state unchanged
      have hstep : sendStateTimes cfg st (c :: rest) =
          sendStateTimes cfg st rest := by
        simp [sendStateTimes, send_state, hth]
      have hrest := ih st (fun c' hc' => hle c' (List.mem_cons_of_mem c hc'))
        hpw_rest
      rw [hstep]
      exact hrest
    · -- not throttled: last_state_update becomes c.1
      have hgap : st.last_state_update + cfg.state_throttle ≤ c.1 := by
        have h1 : cfg.state_throttle ≤ c.1 - st.last_state_update :=
          Nat.le_of_not_lt hth
        omega
      match hrid : st.room.room_id with
      | none =>
        have hstep : sendStateTimes cfg st (c :: rest) =
            sendStateTimes cfg { st with last_state_update := c.1 } rest := by
          simp [sendStateTimes, send_state, hth, hrid]
        have hrest := ih { st with last_state_update := c.1 }
          (fun c' hc' => hc_rest c' hc') hpw_rest
        rw [hstep]
        refine ⟨fun t ht => ?_, hrest.2⟩
        have := hrest.1 t ht
        simp only at this
        omega
      | some rid =>
        have hstep : sendStateTimes cfg st (c :: rest) =
            c.1 :: sendStateTimes cfg { st with last_state_update := c.1 }
              rest := by
          simp [sendStateTimes, send_state, hth, hrid]
        have hrest := ih { st with last_state_update := c.1 }
          (fun c' hc' => hc_rest c' hc') hpw_rest
        rw [hstep]
        constructor
        · intro t ht
          rcases List.mem_cons.mp ht with h | h
          · omega
          · have := hrest.1 t h
            simp only at this
            omega
        · refine List.pairwise_cons.mpr ⟨fun t ht => ?_, hrest.2⟩
          have := hrest.1 t ht
          simp only at this
          omega

/-- C5: `send_state` returns success without publishing when
`now - last_state_update < state_throttle`; otherwise it first updates
`last_state_update` to `now` and then either fails with `NotInRoom` (no
active room) or publishes exactly one State ephemeral; consequently, over any
chronological sequence of calls starting from `last_state_update = 0`, any
two State publishes are at least `state_throttle` apart, so every sliding
window shorter than `state_throttle` holds at most one publish. -/
theorem C5_send_state_throttle {T : Type} (cfg : ArenaConfig) (gs : Json)
    (now : Nat) (st st0 : ArenaState T) (calls : List (Nat × Json)) :
    (now - st.last_state_update < cfg.state_throttle →
      send_state cfg now gs st = (Except.ok (), st, [])) ∧
    (¬ now - st.last_state_update < cfg.state_throttle →
      send_state cfg now gs st =
        match st.room.room_id with
        | none => (Except.error .NotInRoom,
            { st with last_state_update := now }, [])
        | some _ => (Except.ok (), { st with last_state_update := now },
            [WireMsg.ephemeral (EventContent.State { game_state := gs })])) ∧
    (st0.last_state_update = 0 →
      List.Pairwise (fun a b => a.1 ≤ b.1) calls →
      List.Pairwise (fun a b => a + cfg.state_throttle ≤ b)
        (sendStateTimes cfg st0 calls)) := by
  refine ⟨fun h => by simp [send_state, h], fun h => ?_, fun h0 hpw => ?_⟩
  · match hrid : st.room.room_id with
    | none => simp [send_state, h, hrid]
    | some rid => simp [send_state, h, hrid]
  · exact (sendStateTimes_bounds cfg calls st0
      (fun c _ => by omega) hpw).2

/-- An arena inside room "ra" (non-host) with `last_state_update = 0`. -/
def inRoomSt : ArenaState Nat :=
  { idleSt with
    room := { idleSt.room with room_id := some "ra", status := .Ready } }

theorem C5_witness :
    send_state cfgAuto 50 Json.null inRoomSt = (Except.ok (), inRoomSt, []) ∧
    List.Pairwise (fun a b => a + cfgAuto.state_throttle ≤ b)
      (sendStateTimes cfgAuto inRoomSt
        [(0, Json.null), (50, Json.null), (120, Json.null),
         (200, Json.null)]) :=
  ⟨(C5_send_state_throttle cfgAuto Json.null 50 inRoomSt inRoomSt []).1
      (by decide),
   (C5_send_state_throttle cfgAuto Json.null 50 inRoomSt inRoomSt
      [(0, Json.null), (50, Json.null), (120, Json.null),
       (200, Json.null)]).2.2 rfl
      (by simp)⟩

/-- State of the host after the joiner's first Join ephemeral was handled:
two players, status already `Playing`. -/
def dupJoinSt : ArenaState Nat :=
  (handleEvent cfgAuto "host" decNone "joiner"
    (EventContent.Join { player_pubkey := "joiner" }) 1000 hostSt).1

/-- C1 fails on the code: in Auto mode the inbound-Join handler has no guard
on the current status, so the joiner's reliability re-publish of its Join
ephemeral makes the host emit GameStart a second time while the status is
already `Playing`.  Concretely: host creates a two-player Auto room; the
first Join emits PlayerJoin and GameStart and sets status `Playing`; the
duplicate Join then emits PlayerJoin and a second GameStart. -/
theorem C1_counterexample :
    (handleEvent cfgAuto "host" decNone "joiner"
        (EventContent.Join { player_pubkey := "joiner" }) 1000 hostSt).2 =
      [ArenaEvent.PlayerJoin
         { pubkey := "joiner", joined_at := 1000, last_seen := 1000,
           ready := false },
       ArenaEvent.GameStart] ∧
    dupJoinSt.room.status = .Playing ∧
    (handleEvent cfgAuto "host" decNone "joiner"
        (EventContent.Join { player_pubkey := "joiner" }) 1500 dupJoinSt).2 =
      [ArenaEvent.PlayerJoin
         { pubkey := "joiner", joined_at := 1500, last_seen := 1500,
           ready := false },
       ArenaEvent.GameStart] :=
  ⟨rfl, rfl, rfl⟩

/-- C1 amended: in Auto mode, every inbound Join from another author that
brings the player count to at least `max_players` sets the status to
`Playing` and emits PlayerJoin followed by GameStart, regardless of the
current status; the status is `Playing` immediately after each such
emission.  (Hence duplicate Joins re-emit GameStart.) -/
theorem C1_amended {T : Type} (cfg : ArenaConfig) (my author : String)
    (dec : Json → Option T) (j : JoinEventContent) (now : Nat)
    (st : ArenaState T) (hmode : cfg.start_mode = .Auto) (hauth : author ≠ my)
    (hcount : cfg.max_players ≤
      (insertKV st.players j.player_pubkey
        { pubkey := j.player_pubkey, joined_at := now, last_seen := now,
          ready := false }).length) :
    handleEvent cfg my dec author (.Join j) now st =
      ({ st with
         players := insertKV st.players j.player_pubkey
           { pubkey := j.player_pubkey, joined_at := now, last_seen := now,
             ready := false },
         room := { st.room with status := .Playing } },
       [ArenaEvent.PlayerJoin
          { pubkey := j.player_pubkey, joined_at := now, last_seen := now,
            ready := false },
        ArenaEvent.GameStart]) := by
  simp [handleEvent, hauth, hmode, hcount]

theorem C1_witness :
    handleEvent cfgAuto "host" decNone "joiner"
        (EventContent.Join { player_pubkey := "joiner" }) 1500 dupJoinSt =
      ({ dupJoinSt with
         players := insertKV dupJoinSt.players "joiner"
           { pubkey := "joiner", joined_at := 1500, last_seen := 1500,
             ready := false },
         room := { dupJoinSt.room with status := .Playing } },
       [ArenaEvent.PlayerJoin
          { pubkey := "joiner", joined_at := 1500, last_seen := 1500,
            ready := false },
        ArenaEvent.GameStart]) :=
  C1_amended cfgAuto "host" "joiner" decNone { player_pubkey := "joiner" }
    1500 dupJoinSt rfl (by decide) (by decide)

/-- Both players of room "ra" marked ready, status `Ready` (Countdown mode
fixture). -/
def bothReadySt : ArenaState Nat :=
  { room := { RoomState.defaultState with
              room_id := some "ra", status := .Ready },
    players :=
      [("a", { pubkey := "a", joined_at := 0, last_seen := 0, ready := true }),
       ("b", { pubkey := "b", joined_at := 0, last_seen := 0, ready := true })],
    player_states := [], last_state_update := 0 }

/-- Like `bothReadySt` but with player "a" not yet ready, so that an inbound
Ready from "a" completes readiness. -/
def oneReadySt : ArenaState Nat :=
  { bothReadySt with
    players :=
      [("a", { pubkey := "a", joined_at := 0, last_seen := 0, ready := false }),
       ("b", { pubkey := "b", joined_at := 0, last_seen := 0,
               ready := true })] }

/-- C2: the code's two countdown paths disagree.  With
`countdown_seconds = 3`, the local `check_all_ready` path (reached from
`send_ready`) emits AllReady, CountdownStart(3), then CountdownTick(3),
CountdownTick(2), CountdownTick(1) and GameStart — the ticks run from N down
to 1 and never reach 0 — while the inbound-Ready path emits
CountdownTick(2), CountdownTick(1), CountdownTick(0) as the claim (and the
specification, twice) states.  This theorem evaluates both paths at the
failing input. -/
theorem C2_countdown_paths :
    (check_all_ready cfgCountdown bothReadySt).2 =
      [ArenaEvent.AllReady, ArenaEvent.CountdownStart 3,
       ArenaEvent.CountdownTick 3, ArenaEvent.CountdownTick 2,
       ArenaEvent.CountdownTick 1, ArenaEvent.GameStart] ∧
    (handleEvent cfgCountdown "b" decNone "a"
        (EventContent.Ready { ready := true }) 5 oneReadySt).2 =
      [ArenaEvent.AllReady, ArenaEvent.CountdownStart 3,
       ArenaEvent.CountdownTick 2, ArenaEvent.CountdownTick 1,
       ArenaEvent.CountdownTick 0, ArenaEvent.GameStart] :=
  ⟨rfl, rfl⟩

/-- An arena observing player "p" with `last_seen = 1000`. -/
def seenSt : ArenaState Nat :=
  { room := { RoomState.defaultState with
              room_id := some "ra", status := .Playing },
    players :=
      [("p", { pubkey := "p", joined_at := 0, last_seen := 1000,
               ready := false })],
    player_states := [], last_state_update := 0 }

/-- C7 fails on the code: the Heartbeat handler assigns the carried timestamp
unconditionally, so a heartbeat whose `timestamp` is smaller than the stored
`last_seen` decreases it.  Concretely: "p" is stored with `last_seen = 1000`;
an inbound heartbeat carrying `timestamp = 500` leaves `last_seen = 500`. -/
theorem C7_counterexample :
    getKV (handleEvent cfgAuto "me" decNone "p"
        (EventContent.Heartbeat { timestamp := 500 }) 2000 seenSt).1.players
        "p" =
      some { pubkey := "p", joined_at := 0, last_seen := 500,
             ready := false } ∧
    (500 : Nat) < 1000 :=
  ⟨rfl, by decide⟩

/-- C7 amended: processing an inbound Heartbeat from a tracked player sets
that player's `last_seen` to exactly the heartbeat's carried `timestamp` —
even when that timestamp is smaller than the stored value, so `last_seen` is
not monotone under heartbeats with stale timestamps. -/
theorem C7_amended {T : Type} (cfg : ArenaConfig) (my author : String)
    (dec : Json → Option T) (hb : HeartbeatEventContent) (now : Nat)
    (st : ArenaState T) (p : PlayerPresence) (hauth : author ≠ my)
    (hp : getKV st.players author = some p) :
    getKV (handleEvent cfg my dec author (.Heartbeat hb) now st).1.players
        author = some { p with last_seen := hb.timestamp } := by
  simp [handleEvent, hauth, getKV_modifyKV_self, hp]

theorem C7_witness :
    getKV (handleEvent cfgAuto "me" decNone "p"
        (EventContent.Heartbeat { timestamp := 500 }) 2000 seenSt).1.players
        "p" =
      some { pubkey := "p", joined_at := 0, last_seen := 500,
             ready := false } :=
  C7_amended cfgAuto "me" "p" decNone { timestamp := 500 } 2000 seenSt
    { pubkey := "p", joined_at := 0, last_seen := 1000, ready := false }
    (by decide) rfl

/-- A finished two-player room with both ready flags still true, seed 1. -/
def finishedSt : ArenaState Nat :=
  { room := { RoomState.defaultState with
              room_id := some "ra", status := .Finished, seed := 1 },
    players :=
      [("a", { pubkey := "a", joined_at := 0, last_seen := 0, ready := true }),
       ("b", { pubkey := "b", joined_at := 0, last_seen := 0, ready := true })],
    player_states := [], last_state_update := 0 }

/-- C8 fails on the code: an instance processing an inbound Rematch ephemeral
with action `Accept` and `new_seed = 99` adopts the seed and moves to `Ready`
but leaves every player's ready flag untouched — here both stay `true` — so
rematch acceptance does not reset ready flags on instances other than the
caller of `accept_rematch()`. -/
theorem C8_counterexample :
    (handleEvent cfgAuto "b" decNone "a"
        (EventContent.Rematch { action := .Accept, new_seed := some 99 }) 5
        finishedSt).1.room.seed = 99 ∧
    (handleEvent cfgAuto "b" decNone "a"
        (EventContent.Rematch { action := .Accept, new_seed := some 99 }) 5
        finishedSt).1.room.status = .Ready ∧
    getKV (handleEvent cfgAuto "b" decNone "a"
        (EventContent.Rematch { action := .Accept, new_seed := some 99 }) 5
        finishedSt).1.players "a" =
      some { pubkey := "a", joined_at := 0, last_seen := 0, ready := true } ∧
    getKV (handleEvent cfgAuto "b" decNone "a"
        (EventContent.Rematch { action := .Accept, new_seed := some 99 }) 5
        finishedSt).1.players "b" =
      some { pubkey := "b", joined_at := 0, last_seen := 0, ready := true } :=
  ⟨rfl, rfl, rfl, rfl⟩

/-- C8 amended: the instance that calls `accept_rematch()` replaces the seed,
moves to `Ready`, resets every player's ready flag, clears the game states
and emits `RematchStart(new_seed)`; with at least one player present,
`check_all_ready` then emits nothing (so GameStart cannot fire until
readiness is re-established).  An instance that processes an inbound Rematch
Accept carrying `new_seed`, however, only replaces the seed, sets status
`Ready`, clears `rematch_requested` and emits `RematchStart` — its players
map, ready flags included, is left unchanged. -/
theorem C8_amended {T : Type} (cfg : ArenaConfig) (my author rid : String)
    (dec : Json → Option T) (new_seed ns now : Nat) (st st' : ArenaState T) :
    (st.room.room_id = some rid →
      (accept_rematch new_seed st).1 = Except.ok () ∧
      (accept_rematch new_seed st).2.1.room.seed = new_seed ∧
      (accept_rematch new_seed st).2.1.room.status = .Ready ∧
      (∀ q ∈ (accept_rematch new_seed st).2.1.players, q.2.ready = false) ∧
      (accept_rematch new_seed st).2.1.player_states = [] ∧
      (accept_rematch new_seed st).2.2.1 =
        [ArenaEvent.RematchStart new_seed] ∧
      (st.players ≠ [] →
        (check_all_ready cfg (accept_rematch new_seed st).2.1).2 = [])) ∧
    (author ≠ my →
      handleEvent cfg my dec author
          (.Rematch { action := .Accept, new_seed := some ns }) now st' =
        ({ st' with
           room := { st'.room with
                     seed := ns, status := .Ready,
                     rematch_requested := false } },
         [ArenaEvent.RematchStart ns])) := by
  constructor
  · intro hrid
    have hacc : accept_rematch new_seed st =
        (Except.ok (), (reset_for_rematch new_seed st).1,
         (reset_for_rematch new_seed st).2,
         [WireMsg.ephemeral (EventContent.Rematch
            { action := .Accept, new_seed := some new_seed })]) := by
      simp [accept_rematch, hrid]
    rw [hacc]
    refine ⟨rfl, rfl, rfl, ?_, rfl, rfl, ?_⟩
    · intro q hq
      simp only [reset_for_rematch, List.mem_map] at hq
      obtain ⟨p, _, hpq⟩ := hq
      rw [← hpq]
    · intro hne
      match hps : st.players with
      | [] => exact absurd hps hne
      | p :: rest =>
        simp [check_all_ready, reset_for_rematch, hps]
  · intro hauth
    simp [handleEvent, hauth]

theorem C8_witness :
    ((accept_rematch 7 finishedSt).1 = Except.ok () ∧
     (accept_rematch 7 finishedSt).2.1.room.seed = 7 ∧
     (accept_rematch 7 finishedSt).2.1.room.status = .Ready ∧
     (∀ q ∈ (accept_rematch 7 finishedSt).2.1.players, q.2.ready = false) ∧
     (accept_rematch 7 finishedSt).2.1.player_states = [] ∧
     (accept_rematch 7 finishedSt).2.2.1 = [ArenaEvent.RematchStart 7] ∧
     (finishedSt.players ≠ [] →
       (check_all_ready cfgAuto (accept_rematch 7 finishedSt).2.1).2 = [])) ∧
    handleEvent cfgAuto "b" decNone "a"
        (.Rematch { action := .Accept, new_seed := some 99 }) 5 finishedSt =
      ({ finishedSt with
         room := { finishedSt.room with
                   seed := 99, status := .Ready,
                   rematch_requested := false } },
       [ArenaEvent.RematchStart 99]) :=
  ⟨(C8_amended cfgAuto "b" "a" "ra" decNone 7 99 5 finishedSt
      finishedSt).1 rfl,
   (C8_amended cfgAuto "b" "a" "ra" decNone 7 99 5 finishedSt
      finishedSt).2 (by decide)⟩

theorem check_auto_start_players {T : Type} (cfg : ArenaConfig)
    (s : ArenaState T) : (check_auto_start cfg s).1.players = s.players := by
  unfold check_auto_start
  split
  · rfl
  · split <;> rfl

theorem check_all_ready_players {T : Type} (cfg : ArenaConfig)
    (s : ArenaState T) : (check_all_ready cfg s).1.players = s.players := by
  simp only [check_all_ready]
  split <;> first
    | rfl
    | (split <;> rfl)

theorem handleEvent_mem {T : Type} (cfg : ArenaConfig) (my k : String)
    (dec : Json → Option T) (author : String) (content : EventContent)
    (now : Nat) (st : ArenaState T) (h : memKV st.players k = true) :
    memKV (handleEvent cfg my dec author content now st).1.players k
      = true := by
  by_cases hauth : author = my
  · simpa [handleEvent, hauth] using h
  · cases content with
    | Room c => simpa [handleEvent, hauth] using h
    | Join j =>
      simp only [handleEvent, if_neg hauth]
      split
      · exact memKV_insertKV_of_mem _ _ h
      · exact memKV_insertKV_of_mem _ _ h
    | State se =>
      simp only [handleEvent, if_neg hauth]
      cases hdec : dec se.game_state with
      | some t => simpa [memKV_modifyKV] using h
      | none => simpa [memKV_modifyKV] using h
    | GameOver go => simpa [handleEvent, hauth] using h
    | Rematch rm =>
      obtain ⟨act, ns⟩ := rm
      cases act <;> cases ns <;> simpa [handleEvent, hauth] using h
    | Heartbeat hb =>
      simp only [handleEvent, if_neg hauth]
      simpa [memKV_modifyKV] using h
    | Ready r =>
      simp only [handleEvent, if_neg hauth]
      split
      · split <;> simpa [memKV_modifyKV] using h
      · simpa [memKV_modifyKV] using h
    | GameStart c => simpa [handleEvent, hauth] using h

/-- C3 fails on the code: the state reached by `create` at time 0 followed by
one host presence sweep at time 20000 (with the default 10000 ms disconnect
threshold) has status `Waiting` — neither `Idle` nor `Deleted` — yet the
instance's own pubkey is no longer in the players map: the sweep drops every
stale player including self, and self's `last_seen` is never refreshed
because self-authored heartbeats are filtered out of the subscription. -/
theorem C3_counterexample :
    (step cfgAuto "host" decNone (Op.sweepOp 20000) hostSt).1.room.status
      = .Waiting ∧
    (step cfgAuto "host" decNone (Op.sweepOp 20000) hostSt).1.room.status
      ≠ .Idle ∧
    (step cfgAuto "host" decNone (Op.sweepOp 20000) hostSt).1.room.status
      ≠ .Deleted ∧
    memKV (step cfgAuto "host" decNone (Op.sweepOp 20000) hostSt).1.players
      "host" = false ∧
    (step cfgAuto "host" decNone (Op.sweepOp 20000) hostSt).2.1
      = [ArenaEvent.PlayerLeave "host"] :=
  ⟨rfl, by decide, by decide, rfl, rfl⟩

/-- C3 amended: if the instance's own pubkey is in the players map, then
after any single operation the invariant "status ∉ {Idle, Deleted} → self ∈
players" holds — provided that a host presence sweep at time `now` only runs
while `now − self.last_seen ≤ disconnect_threshold`.  Without that proviso
the sweep evicts self (see the counterexample), since the sweep drops every
stale player and self's `last_seen` is never refreshed locally. -/
theorem C3_self_membership {T : Type} (cfg : ArenaConfig) (selfPub : String)
    (dec : Json → Option T) (op : Op T) (st : ArenaState T)
    (hself : memKV st.players selfPub = true)
    (hsweep : ∀ now, op = Op.sweepOp now →
      ∀ p, getKV st.players selfPub = some p →
        now - p.last_seen ≤ cfg.disconnect_threshold) :
    selfInvariant selfPub (step cfg selfPub dec op st).1 := by
  cases op with
  | createOp rid seed now =>
    intro _ _
    simp only [step, create]
    exact memKV_insertKV_self _ _ _
  | joinOp rid fetch now =>
    intro _ _
    match fetch with
    | .fetchErr m => simpa [step, joinFull, joinRoom] using hself
    | .notFound => simpa [step, joinFull, joinRoom] using hself
    | .found (.error m) s => simpa [step, joinFull, joinRoom] using hself
    | .found (.ok c) s =>
      by_cases h1 : c.status = .Deleted
      · simpa [step, joinFull, joinRoom, h1] using hself
      · by_cases h2 : c.expires_at.elim false (fun e => decide (now > e))
            = true
        · simpa [step, joinFull, joinRoom, h1, h2] using hself
        · by_cases h3 : c.players.length ≥ c.max_players
          · simpa [step, joinFull, joinRoom, h1, h2, h3] using hself
          · simp only [step, joinFull, joinRoom, if_neg h1, if_neg h2,
              if_neg h3]
            rw [check_auto_start_players]
            exact memKV_insertKV_self _ _ _
  | leaveOp =>
    intro h1 _
    exact absurd rfl h1
  | deleteOp =>
    by_cases hh : st.room.is_host = false
    · intro _ _
      simpa [step, delete_room, hh] using hself
    · match hrid : st.room.room_id with
      | none =>
        intro _ _
        simpa [step, delete_room, hh, hrid] using hself
      | some rid =>
        intro h1 _
        exact absurd (by simp [step, delete_room, hh, hrid, leave]) h1
  | inboundOp author content now =>
    intro _ _
    simp only [step]
    exact handleEvent_mem cfg selfPub selfPub dec author content now st hself
  | sweepOp now =>
    by_cases hskip : st.room.room_id = none ∨ st.room.is_host = false
    · intro _ _
      simpa [step, presenceSweep, hskip] using hself
    · intro _ _
      obtain ⟨p, hp⟩ := (memKV_iff_getKV st.players selfPub).mp hself
      have hfresh : now - p.last_seen ≤ cfg.disconnect_threshold :=
        hsweep now rfl p hp
      simp only [step, presenceSweep, if_neg hskip]
      exact memKV_filter_snd _ hp (fun k₀ => by simp; omega)
  | sendReadyOp rdy =>
    intro _ _
    match hrid : st.room.room_id with
    | none => simpa [step, send_ready, hrid] using hself
    | some rid =>
      simp only [step, send_ready, hrid]
      rw [check_all_ready_players]
      simpa [memKV_modifyKV] using hself
  | sendStateOp gs now =>
    intro _ _
    by_cases hth : now - st.last_state_update < cfg.state_throttle
    · simpa [step, send_state, hth] using hself
    · match hrid : st.room.room_id with
      | none => simpa [step, send_state, hth, hrid] using hself
      | some rid => simpa [step, send_state, hth, hrid] using hself
  | startGameOp =>
    intro _ _
    by_cases hh : st.room.is_host = false
    · simpa [step, start_game, hh] using hself
    · match hrid : st.room.room_id with
      | none => simpa [step, start_game, hh, hrid] using hself
      | some rid => simpa [step, start_game, hh, hrid] using hself
  | acceptRematchOp new_seed =>
    intro _ _
    match hrid : st.room.room_id with
    | none => simpa [step, accept_rematch, hrid] using hself
    | some rid =>
      simp only [step, accept_rematch, hrid, reset_for_rematch]
      rw [memKV_map_keep]
      · exact hself
      · intro q
        rfl
  | requestRematchOp =>
    intro _ _
    by_cases hs : st.room.status ≠ .Finished
    · simpa [step, request_rematch, hs] using hself
    · match hrid : st.room.room_id with
      | none => simpa [step, request_rematch, hs, hrid] using hself
      | some rid => simpa [step, request_rematch, hs, hrid] using hself
  | sendGameOverOp reason score =>
    intro _ _
    match hrid : st.room.room_id with
    | none => simpa [step, send_game_over, hrid] using hself
    | some rid => simpa [step, send_game_over, hrid] using hself

theorem C3_witness :
    memKV hostSt.players "host" = true ∧
    selfInvariant "host"
      (step cfgAuto "host" decNone (Op.sweepOp 5000 : Op Nat) hostSt).1 :=
  ⟨rfl,
   C3_self_membership cfgAuto "host" decNone (Op.sweepOp 5000) hostSt rfl
     (by
       intro now heq p hp
       cases heq
       cases hp
       decide)⟩

theorem decStatus_encStatus (s : RoomStatus) :
    decStatus (encStatus s) = some s := by
  cases s <;> rfl

theorem decAction_encAction (a : RematchAction) :
    decAction (encAction a) = some a := by
  cases a <;> rfl

theorem decPlayer_encPlayer (p : PlayerPresence) :
    decPlayer (encPlayer p) = some p := by
  have h1 : ¬((p.joined_at : Int) < 0) := by omega
  have h2 : ¬((p.last_seen : Int) < 0) := by omega
  simp [decPlayer, encPlayer, reqField, getKV, asStr, asU64, asBool, h1, h2]

theorem decPlayers_enc (ps : List PlayerPresence) :
    decPlayers (ps.map encPlayer) = some ps := by
  induction ps with
  | nil => rfl
  | cons p rest ih =>
    simp [decPlayers, decPlayer_encPlayer, ih]

theorem decRoomFields_enc (r : RoomEventContent) :
    decRoomFields (encRoomFields r) = some r := by
  have hseed : ¬((r.seed : Int) < 0) := by omega
  have hmp : ¬((r.max_players : Int) < 0) := by omega
  cases hea : r.expires_at with
  | none =>
    simp [decRoomFields, encRoomFields, reqField, getKV, optField, decOpt,
      decStatus_encStatus, asStr, asU64, hseed, hmp, decPlayers_enc, hea]
    rw [← hea]
  | some e =>
    have he : ¬((e : Int) < 0) := by omega
    simp [decRoomFields, encRoomFields, reqField, getKV, optField, decOpt,
      decStatus_encStatus, asStr, asU64, hseed, hmp, he, decPlayers_enc, hea]
    rw [← hea]

theorem decRoomFields_enc_tagged (t : Json) (r : RoomEventContent) :
    decRoomFields (("type", t) :: encRoomFields r) = some r := by
  have hseed : ¬((r.seed : Int) < 0) := by omega
  have hmp : ¬((r.max_players : Int) < 0) := by omega
  cases hea : r.expires_at with
  | none =>
    simp [decRoomFields, encRoomFields, reqField, getKV, optField, decOpt,
      decStatus_encStatus, asStr, asU64, hseed, hmp, decPlayers_enc, hea]
    rw [← hea]
  | some e =>
    have he : ¬((e : Int) < 0) := by omega
    simp [decRoomFields, encRoomFields, reqField, getKV, optField, decOpt,
      decStatus_encStatus, asStr, asU64, hseed, hmp, he, decPlayers_enc, hea]
    rw [← hea]

/-- C9: serializing any `EventContent` variant (Room, Join, State, GameOver,
Rematch, Heartbeat, Ready, GameStart) or any `RoomEventContent` snapshot to
JSON and deserializing back yields the original value. -/
theorem C9_roundtrip :
    (∀ c : EventContent, decEventContent (encEventContent c) = some c) ∧
    (∀ r : RoomEventContent,
      decRoomEventContent (encRoomEventContent r) = some r) := by
  constructor
  · intro c
    cases c with
    | Room rc =>
      simp [encEventContent, decEventContent, getKV,
        decRoomFields_enc_tagged]
    | Join jc =>
      simp [encEventContent, decEventContent, reqField, getKV, asStr]
    | State sc =>
      simp [encEventContent, decEventContent, getKV]
    | GameOver gc =>
      cases hfs : gc.final_score with
      | none =>
        cases hw : gc.winner with
        | none =>
          simp [encEventContent, decEventContent, reqField, getKV, optField,
            decOpt, asStr, asI64, hfs, hw]
          rw [← hfs, ← hw]
        | some w =>
          simp [encEventContent, decEventContent, reqField, getKV, optField,
            decOpt, asStr, asI64, hfs, hw]
          rw [← hfs, ← hw]
      | some sc =>
        cases hw : gc.winner with
        | none =>
          simp [encEventContent, decEventContent, reqField, getKV, optField,
            decOpt, asStr, asI64, hfs, hw]
          rw [← hfs, ← hw]
        | some w =>
          simp [encEventContent, decEventContent, reqField, getKV, optField,
            decOpt, asStr, asI64, hfs, hw]
          rw [← hfs, ← hw]
    | Rematch rc =>
      cases hns : rc.new_seed with
      | none =>
        simp [encEventContent, decEventContent, reqField, getKV, optField,
          decOpt, decAction_encAction, asU64, hns]
        rw [← hns]
      | some n =>
        have hn : ¬((n : Int) < 0) := by omega
        simp [encEventContent, decEventContent, reqField, getKV, optField,
          decOpt, decAction_encAction, asU64, hn, hns]
        rw [← hns]
    | Heartbeat hc =>
      have ht : ¬((hc.timestamp : Int) < 0) := by omega
      simp [encEventContent, decEventContent, reqField, getKV, asU64, ht]
    | Ready rc =>
      simp [encEventContent, decEventContent, reqField, getKV, asBool]
    | GameStart gc =>
      simp [encEventContent, decEventContent, getKV]
  · intro r
    exact decRoomFields_enc r
